import Mathlib

/-!
Shallow embedding of `sistema-figuras.js`: a small object-oriented system of
2D geometric shapes (circle, rectangle, pentagon, hexagon), 3D solids
(cube, sphere) bridged by an adapter, a factory, pluggable similarity
strategies and an ordered collection.

Modelling conventions:
* JavaScript numbers are IEEE doubles; every finite double is a rational
  number, so finite values are carried as `ℚ` and the special values
  `NaN`, `+Infinity`, `-Infinity` are explicit constructors.  Floating-point
  rounding is abstracted away: finite arithmetic is modelled exactly over
  the reals, which is the precision the specification works at
  ("to floating-point tolerance").
* Geometric formulas are real-valued (`π`, `tan`, `√` are irrational), so
  the metric functions live in `ℝ`; construction and validation stay
  computable.
* Thrown `Error`s become `Except JSError`; the two error kinds of the
  specification (`InvalidParameter`, `UnknownKind`) are the constructors.
* Every theorem about computed metrics assumes finite (validation-passing)
  parameters; arithmetic on `NaN`/`±Infinity` is never exercised by any
  statement below.
-/

open Real

/-- A JavaScript number value: a finite double (carried exactly as a
rational) or one of the special values `NaN`, `+Infinity`, `-Infinity`. -/
inductive JSNum where
  | fin (q : ℚ)
  | posInf
  | negInf
  | nan
deriving DecidableEq

/-- A JavaScript value as seen by `typeof`-based validation: either of
number type, or anything else (string, undefined, object, ...). -/
inductive JSValue where
  | number (n : JSNum)
  | nonNumber
deriving DecidableEq

/-- Error kinds of the system (spec §7).  In the source both are plain
`Error` values distinguished only by their message; `invalidParameter`
carries the offending field name interpolated into the message. -/
inductive JSError where
  | invalidParameter (nombre : String)
  | unknownKind
deriving DecidableEq

/-- The JavaScript comparison `n <= 0` on a number value: `NaN <= 0` and
`Infinity <= 0` are `false`, `-Infinity <= 0` is `true`, and on finite
values it is the rational order. -/
def JSNum.leZero : JSNum → Bool
  | .fin q => decide (q ≤ 0)
  | .posInf => false
  | .negInf => true
  | .nan => false

/-- `validarNumero(valor, nombre)`: throws exactly when
`typeof valor !== 'number' || valor <= 0` (lines 8-12 of the source). -/
def validarNumero (valor : JSValue) (nombre : String) : Except JSError Unit :=
  match valor with
  | .nonNumber => .error (.invalidParameter nombre)
  | .number n => if n.leZero then .error (.invalidParameter nombre) else .ok ()

/-- The number carried by a value of number type.  Only applied after
`validarNumero` has succeeded, which rules out `nonNumber`. -/
def JSValue.toNum : JSValue → JSNum
  | .number n => n
  | .nonNumber => .nan

/-- The real value of a finite JS number.  The non-finite arms are never
reached by any theorem below: every statement about computed metrics
restricts to finite parameters. -/
noncomputable def JSNum.toReal : JSNum → ℝ
  | .fin q => (q : ℝ)
  | .posInf => 0
  | .negInf => 0
  | .nan => 0

/-- `Number.prototype.toFixed(2)`: decimal rendering with two fractional
digits, modelled as rounding to the nearest hundredth (all described
metrics in this system are nonnegative). -/
noncomputable def toFixed2 (x : ℝ) : String :=
  let c : ℤ := round (x * 100)
  toString (c / 100) ++ "." ++
    (if c.natAbs % 100 < 10 then "0" else "") ++ toString (c.natAbs % 100)

/-- `class Circulo`: state after construction (`this.radio = radio`). -/
structure Circulo where
  radio : JSNum
deriving DecidableEq

/-- `new Circulo(radio)`: validates, then assigns the field. -/
def Circulo.crear (radio : JSValue) : Except JSError Circulo :=
  match validarNumero radio "radio" with
  | .error e => .error e
  | .ok _ => .ok ⟨radio.toNum⟩

def Circulo.nombre (_ : Circulo) : String := "Círculo"

noncomputable def Circulo.calcularArea (c : Circulo) : ℝ :=
  Real.pi * c.radio.toReal ^ 2

noncomputable def Circulo.calcularPerimetro (c : Circulo) : ℝ :=
  2 * Real.pi * c.radio.toReal

def Circulo.dibujarASCII (_ : Circulo) : String :=
  "\n   ***   \n *     * \n *     * \n   ***   \n"

/-- `class Rectangulo`: state after construction. -/
structure Rectangulo where
  ancho : JSNum
  alto : JSNum
deriving DecidableEq

/-- `new Rectangulo(ancho, alto)`: validates `ancho` first, then `alto`. -/
def Rectangulo.crear (ancho alto : JSValue) : Except JSError Rectangulo :=
  match validarNumero ancho "ancho" with
  | .error e => .error e
  | .ok _ =>
    match validarNumero alto "alto" with
    | .error e => .error e
    | .ok _ => .ok ⟨ancho.toNum, alto.toNum⟩

def Rectangulo.nombre (_ : Rectangulo) : String := "Rectángulo"

noncomputable def Rectangulo.calcularArea (r : Rectangulo) : ℝ :=
  r.ancho.toReal * r.alto.toReal

noncomputable def Rectangulo.calcularPerimetro (r : Rectangulo) : ℝ :=
  2 * (r.ancho.toReal + r.alto.toReal)

def Rectangulo.dibujarASCII (_ : Rectangulo) : String :=
  "\n+-----------+\n|           |\n|           |\n+-----------+\n"

/-- `class Pentagono`: state after construction. -/
structure Pentagono where
  lado : JSNum
deriving DecidableEq

/-- `new Pentagono(lado)`. -/
def Pentagono.crear (lado : JSValue) : Except JSError Pentagono :=
  match validarNumero lado "lado" with
  | .error e => .error e
  | .ok _ => .ok ⟨lado.toNum⟩

def Pentagono.nombre (_ : Pentagono) : String := "Pentágono"

noncomputable def Pentagono.calcularArea (p : Pentagono) : ℝ :=
  (5 * p.lado.toReal ^ 2) / (4 * Real.tan (Real.pi / 5))

noncomputable def Pentagono.calcularPerimetro (p : Pentagono) : ℝ :=
  5 * p.lado.toReal

def Pentagono.dibujarASCII (_ : Pentagono) : String :=
  "\n   /\\\n  /  \\\n /____\\\n \\    /\n  \\__/\n"

/-- `class Hexagono`: state after construction. -/
structure Hexagono where
  lado : JSNum
deriving DecidableEq

/-- `new Hexagono(lado)`. -/
def Hexagono.crear (lado : JSValue) : Except JSError Hexagono :=
  match validarNumero lado "lado" with
  | .error e => .error e
  | .ok _ => .ok ⟨lado.toNum⟩

def Hexagono.nombre (_ : Hexagono) : String := "Hexágono"

noncomputable def Hexagono.calcularArea (h : Hexagono) : ℝ :=
  ((3 * Real.sqrt 3) / 2) * h.lado.toReal ^ 2

noncomputable def Hexagono.calcularPerimetro (h : Hexagono) : ℝ :=
  6 * h.lado.toReal

def Hexagono.dibujarASCII (_ : Hexagono) : String :=
  "\n  ____  \n /    \\ \n/      \\\n\\      /\n \\____/\n"

/-- `class Cubo` (3D solid, not a 2D shape): state after construction. -/
structure Cubo where
  lado : JSNum
deriving DecidableEq

/-- `new Cubo(lado)`. -/
def Cubo.crear (lado : JSValue) : Except JSError Cubo :=
  match validarNumero lado "lado" with
  | .error e => .error e
  | .ok _ => .ok ⟨lado.toNum⟩

def Cubo.nombre (_ : Cubo) : String := "Cubo"

noncomputable def Cubo.calcularVolumen (c : Cubo) : ℝ :=
  c.lado.toReal ^ 3

def Cubo.dibujarASCII (_ : Cubo) : String :=
  "\n+------+\n|      |\n+------+\n|      |\n+------+\n"

/-- `class Esfera` (3D solid): state after construction. -/
structure Esfera where
  radio : JSNum
deriving DecidableEq

/-- `new Esfera(radio)`. -/
def Esfera.crear (radio : JSValue) : Except JSError Esfera :=
  match validarNumero radio "radio" with
  | .error e => .error e
  | .ok _ => .ok ⟨radio.toNum⟩

def Esfera.nombre (_ : Esfera) : String := "Esfera"

noncomputable def Esfera.calcularVolumen (e : Esfera) : ℝ :=
  (4 / 3) * Real.pi * e.radio.toReal ^ 3

def Esfera.dibujarASCII (_ : Esfera) : String :=
  "\n   ***   \n *     * \n *     * \n   ***   \n"

/-- The 3D solids the system defines (the objects a `Figura3DAdapter`
can wrap). -/
inductive Figura3D where
  | cubo (c : Cubo)
  | esfera (e : Esfera)
deriving DecidableEq

def Figura3D.nombre : Figura3D → String
  | .cubo c => c.nombre
  | .esfera e => e.nombre

noncomputable def Figura3D.calcularVolumen : Figura3D → ℝ
  | .cubo c => c.calcularVolumen
  | .esfera e => e.calcularVolumen

def Figura3D.dibujarASCII : Figura3D → String
  | .cubo c => c.dibujarASCII
  | .esfera e => e.dibujarASCII

/-- `class Figura3DAdapter`: wraps a 3D solid to present the 2D-facing
methods (`calcularArea`, `calcularPerimetro`, `describir`,
`dibujarASCII`).  Note it does NOT extend `FiguraGeometrica`: it has no
`#id` field, no `id` accessor and no `compararSimilitud` method. -/
structure Figura3DAdapter where
  figura3D : Figura3D
deriving DecidableEq

def Figura3DAdapter.nombre (a : Figura3DAdapter) : String :=
  a.figura3D.nombre

/-- Volume projected to a 2D area: `calcularVolumen() ** (2/3)`. -/
noncomputable def Figura3DAdapter.calcularArea (a : Figura3DAdapter) : ℝ :=
  a.figura3D.calcularVolumen ^ ((2 : ℝ) / 3)

/-- `return 0; // No aplica` -/
def Figura3DAdapter.calcularPerimetro (_ : Figura3DAdapter) : ℝ := 0

noncomputable def Figura3DAdapter.describir (a : Figura3DAdapter) : String :=
  a.nombre ++ " (3D) - Volumen: " ++ toFixed2 a.figura3D.calcularVolumen

def Figura3DAdapter.dibujarASCII (a : Figura3DAdapter) : String :=
  a.figura3D.dibujarASCII

/-- The values the factory `FiguraGeometrica.crear` can return: a concrete
2D shape (all of which extend the abstract class `FiguraGeometrica`), or
an adapter-wrapped 3D solid. -/
inductive FiguraGeometrica where
  | circulo (c : Circulo)
  | rectangulo (r : Rectangulo)
  | pentagono (p : Pentagono)
  | hexagono (h : Hexagono)
  | adaptada (a : Figura3DAdapter)
deriving DecidableEq

def FiguraGeometrica.nombre : FiguraGeometrica → String
  | .circulo c => c.nombre
  | .rectangulo r => r.nombre
  | .pentagono p => p.nombre
  | .hexagono h => h.nombre
  | .adaptada a => a.nombre

noncomputable def FiguraGeometrica.calcularArea : FiguraGeometrica → ℝ
  | .circulo c => c.calcularArea
  | .rectangulo r => r.calcularArea
  | .pentagono p => p.calcularArea
  | .hexagono h => h.calcularArea
  | .adaptada a => a.calcularArea

noncomputable def FiguraGeometrica.calcularPerimetro : FiguraGeometrica → ℝ
  | .circulo c => c.calcularPerimetro
  | .rectangulo r => r.calcularPerimetro
  | .pentagono p => p.calcularPerimetro
  | .hexagono h => h.calcularPerimetro
  | .adaptada a => a.calcularPerimetro

def FiguraGeometrica.dibujarASCII : FiguraGeometrica → String
  | .circulo c => c.dibujarASCII
  | .rectangulo r => r.dibujarASCII
  | .pentagono p => p.dibujarASCII
  | .hexagono h => h.dibujarASCII
  | .adaptada a => a.dibujarASCII

/-- `describir()`: the 2D shapes use the base-class template combining
name, area and perimeter; the adapter uses its own volume template. -/
noncomputable def FiguraGeometrica.describir (f : FiguraGeometrica) : String :=
  match f with
  | .adaptada a => a.describir
  | f => f.nombre ++ " - Área: " ++ toFixed2 f.calcularArea ++
      ", Perímetro: " ++ toFixed2 f.calcularPerimetro

/-- The two concrete similarity strategies (the abstract
`SimilitudStrategy` base only throws and is never instantiated by the
system). -/
inductive SimilitudStrategy where
  | tipo
  | area
deriving DecidableEq

/-- `sonSimilares(fig1, fig2)` per strategy: `SimilitudTipo` compares the
`nombre` fields for strict equality; `SimilitudArea` forms the ratio of
the computed areas in argument order and tests `ratio > 0.8 && ratio < 1.2`. -/
def SimilitudStrategy.sonSimilares :
    SimilitudStrategy → FiguraGeometrica → FiguraGeometrica → Prop
  | .tipo, fig1, fig2 => fig1.nombre = fig2.nombre
  | .area, fig1, fig2 =>
      fig1.calcularArea / fig2.calcularArea > 0.8 ∧
      fig1.calcularArea / fig2.calcularArea < 1.2

/-- `compararSimilitud(figura, estrategia = new SimilitudTipo())`: the
optional strategy argument defaults to type similarity. -/
def FiguraGeometrica.compararSimilitud (fig1 fig2 : FiguraGeometrica)
    (estrategia : Option SimilitudStrategy) : Prop :=
  (estrategia.getD .tipo).sonSimilares fig1 fig2

/-- The members of the 2D shape contract named by the specification. -/
inductive Metodo where
  | calcularArea
  | calcularPerimetro
  | dibujarASCII
  | describir
  | id
  | compararSimilitud
deriving DecidableEq

/-- Instance members of `class Figura3DAdapter` as declared in the source:
`calcularArea`, `calcularPerimetro`, `describir`, `dibujarASCII` — and
nothing else: no `id` accessor and no `compararSimilitud` method. -/
def Figura3DAdapter.tieneMetodo : Metodo → Bool
  | .calcularArea => true
  | .calcularPerimetro => true
  | .dibujarASCII => true
  | .describir => true
  | .id => false
  | .compararSimilitud => false

/-- Member lookup on a factory product.  The 2D shapes extend
`FiguraGeometrica`, whose declaration provides all six members
(`calcularArea`, `calcularPerimetro`, `dibujarASCII`, `describir`,
`get id`, `compararSimilitud`); the adapter provides only its own four. -/
def FiguraGeometrica.tieneMetodo : FiguraGeometrica → Metodo → Bool
  | .adaptada _, m => Figura3DAdapter.tieneMetodo m
  | _, _ => true

/-- The kind of a factory product (used to state that `nombre` labels
kinds injectively). -/
inductive Tipo where
  | circulo
  | rectangulo
  | pentagono
  | hexagono
  | cubo
  | esfera
deriving DecidableEq

def FiguraGeometrica.tipoDe : FiguraGeometrica → Tipo
  | .circulo _ => .circulo
  | .rectangulo _ => .rectangulo
  | .pentagono _ => .pentagono
  | .hexagono _ => .hexagono
  | .adaptada ⟨.cubo _⟩ => .cubo
  | .adaptada ⟨.esfera _⟩ => .esfera

/-- The parameter bag passed to the factory.  A field the caller did not
supply is `undefined`, i.e. not of number type. -/
structure Parametros where
  radio : JSValue
  ancho : JSValue
  alto : JSValue
  lado : JSValue
deriving DecidableEq

/-- `static crear(tipo, parametros)` (Factory Method, lines 108-125):
dispatches on the kind tag, constructs the matching shape — wrapping the
3D solids in a `Figura3DAdapter` — and throws `Tipo no reconocido`
(`UnknownKind`) on any other tag. -/
def FiguraGeometrica.crear (tipo : String) (parametros : Parametros) :
    Except JSError FiguraGeometrica :=
  match tipo with
  | "circulo" => (Circulo.crear parametros.radio).map .circulo
  | "rectangulo" => (Rectangulo.crear parametros.ancho parametros.alto).map .rectangulo
  | "pentagono" => (Pentagono.crear parametros.lado).map .pentagono
  | "hexagono" => (Hexagono.crear parametros.lado).map .hexagono
  | "cubo" => (Cubo.crear parametros.lado).map (fun c => .adaptada ⟨.cubo c⟩)
  | "esfera" => (Esfera.crear parametros.radio).map (fun e => .adaptada ⟨.esfera e⟩)
  | _ => .error .unknownKind

/-- `class ColeccionFiguras`: holds the shapes in a JavaScript array. -/
structure ColeccionFiguras where
  figuras : List FiguraGeometrica

/-- `new ColeccionFiguras()`: `this.figuras = []`. -/
def ColeccionFiguras.vacia : ColeccionFiguras := ⟨[]⟩

/-- `agregar(figura)`: `this.figuras.push(figura)`. -/
def ColeccionFiguras.agregar (c : ColeccionFiguras) (figura : FiguraGeometrica) :
    ColeccionFiguras :=
  ⟨c.figuras ++ [figura]⟩

/-- `listar()`: the sequence of lines logged to the console — the header
followed by each member's `describir()` in array order. -/
noncomputable def ColeccionFiguras.listar (c : ColeccionFiguras) : List String :=
  "=== FIGURAS ===" :: c.figuras.map FiguraGeometrica.describir

/-- A finite, strictly positive JS number: the parameters the
specification calls valid. -/
def JSNum.esFinitoPositivo : JSNum → Bool
  | .fin q => decide (0 < q)
  | .posInf => false
  | .negInf => false
  | .nan => false

/-- All stored defining parameters of the figure are finite and strictly
positive (the invariant the specification intends validation to give). -/
def FiguraGeometrica.esValida : FiguraGeometrica → Bool
  | .circulo c => c.radio.esFinitoPositivo
  | .rectangulo r => r.ancho.esFinitoPositivo && r.alto.esFinitoPositivo
  | .pentagono p => p.lado.esFinitoPositivo
  | .hexagono h => h.lado.esFinitoPositivo
  | .adaptada ⟨.cubo c⟩ => c.lado.esFinitoPositivo
  | .adaptada ⟨.esfera e⟩ => e.radio.esFinitoPositivo

/-! ## Helper lemmas -/

lemma validarNumero_fin_pos (q : ℚ) (hq : 0 < q) (nombre : String) :
    validarNumero (JSValue.number (JSNum.fin q)) nombre = Except.ok () := by
  simp [validarNumero, JSNum.leZero, not_le.mpr hq]

lemma pi_div_five_lt : Real.pi / 5 < Real.pi / 2 := by
  have := Real.pi_pos
  linarith

lemma tan_pi_div_five_pos : 0 < Real.tan (Real.pi / 5) :=
  Real.tan_pos_of_pos_of_lt_pi_div_two (by positivity) pi_div_five_lt

lemma tan_pi_div_five_gt : (0.6 : ℝ) < Real.tan (Real.pi / 5) := by
  have h1 : Real.pi / 5 < Real.tan (Real.pi / 5) :=
    Real.lt_tan (by positivity) pi_div_five_lt
  have h2 : (0.6 : ℝ) < Real.pi / 5 := by linarith [Real.pi_gt_three]
  linarith

lemma sqrt_three_gt : (1.7 : ℝ) < Real.sqrt 3 :=
  (Real.lt_sqrt (by norm_num)).mpr (by norm_num)

lemma circulo_area_pos (q : ℚ) (hq : 0 < q) :
    0 < Circulo.calcularArea ⟨.fin q⟩ := by
  have hq' : (0 : ℝ) < (q : ℝ) := by exact_mod_cast hq
  have e : Circulo.calcularArea ⟨.fin q⟩ = Real.pi * (q : ℝ) ^ 2 := rfl
  rw [e]
  exact mul_pos Real.pi_pos (pow_pos hq' 2)

lemma rectangulo_area_pos (w h : ℚ) (hw : 0 < w) (hh : 0 < h) :
    0 < Rectangulo.calcularArea ⟨.fin w, .fin h⟩ := by
  have hw' : (0 : ℝ) < (w : ℝ) := by exact_mod_cast hw
  have hh' : (0 : ℝ) < (h : ℝ) := by exact_mod_cast hh
  have e : Rectangulo.calcularArea ⟨.fin w, .fin h⟩ = (w : ℝ) * (h : ℝ) := rfl
  rw [e]
  exact mul_pos hw' hh'

lemma pentagono_area_pos (q : ℚ) (hq : 0 < q) :
    0 < Pentagono.calcularArea ⟨.fin q⟩ := by
  have hq' : (0 : ℝ) < (q : ℝ) := by exact_mod_cast hq
  have e : Pentagono.calcularArea ⟨.fin q⟩ =
      (5 * (q : ℝ) ^ 2) / (4 * Real.tan (Real.pi / 5)) := rfl
  rw [e]
  exact div_pos (by positivity) (mul_pos (by norm_num) tan_pi_div_five_pos)

lemma hexagono_area_pos (q : ℚ) (hq : 0 < q) :
    0 < Hexagono.calcularArea ⟨.fin q⟩ := by
  have hq' : (0 : ℝ) < (q : ℝ) := by exact_mod_cast hq
  have e : Hexagono.calcularArea ⟨.fin q⟩ =
      ((3 * Real.sqrt 3) / 2) * (q : ℝ) ^ 2 := rfl
  rw [e]
  have h3 : (0 : ℝ) < Real.sqrt 3 := Real.sqrt_pos.mpr (by norm_num)
  exact mul_pos (by positivity) (pow_pos hq' 2)

lemma cubo_volumen_pos (q : ℚ) (hq : 0 < q) :
    0 < Cubo.calcularVolumen ⟨.fin q⟩ := by
  have hq' : (0 : ℝ) < (q : ℝ) := by exact_mod_cast hq
  have e : Cubo.calcularVolumen ⟨.fin q⟩ = (q : ℝ) ^ 3 := rfl
  rw [e]
  exact pow_pos hq' 3

lemma esfera_volumen_pos (q : ℚ) (hq : 0 < q) :
    0 < Esfera.calcularVolumen ⟨.fin q⟩ := by
  have hq' : (0 : ℝ) < (q : ℝ) := by exact_mod_cast hq
  have e : Esfera.calcularVolumen ⟨.fin q⟩ = (4 / 3) * Real.pi * (q : ℝ) ^ 3 := rfl
  rw [e]
  have := Real.pi_pos
  positivity

lemma nombre_eq_iff_tipo (fig1 fig2 : FiguraGeometrica) :
    fig1.nombre = fig2.nombre ↔ fig1.tipoDe = fig2.tipoDe := by
  rcases fig1 with c | r | p | h | ⟨cc | ee⟩ <;>
    rcases fig2 with c' | r' | p' | h' | ⟨cc' | ee'⟩ <;>
      simp [FiguraGeometrica.nombre, FiguraGeometrica.tipoDe, Figura3D.nombre,
        Figura3DAdapter.nombre, Circulo.nombre, Rectangulo.nombre, Pentagono.nombre,
        Hexagono.nombre, Cubo.nombre, Esfera.nombre]

/-! ## Claims -/

/-- C1 (counterexample): `NaN` is of JavaScript number type and `NaN <= 0`
evaluates to `false`, so `validarNumero` accepts it and `new Circulo(NaN)`
succeeds, producing a shape instance whose radius is `NaN` — against the
claim that every non-real defining parameter fails with `InvalidParameter`
and produces no instance. -/
theorem validarNumero_acepta_nan :
    validarNumero (JSValue.number JSNum.nan) "radio" = Except.ok () ∧
    Circulo.crear (JSValue.number JSNum.nan) = Except.ok ⟨JSNum.nan⟩ :=
  ⟨rfl, rfl⟩

/-- C1 (amended): `validarNumero(v, n)` fails with `InvalidParameter` iff
`v` is not of number type, is `-Infinity`, or is a finite number `≤ 0` —
so `NaN` and `+Infinity` pass validation — and every shape or solid
constructor succeeds on finite strictly positive parameters (storing
them) and produces no instance exactly when validation fails. -/
theorem validarNumero_caracterizacion :
    (∀ (v : JSValue) (nombre : String),
        validarNumero v nombre = Except.error (JSError.invalidParameter nombre) ↔
          (v = JSValue.nonNumber ∨ v = JSValue.number JSNum.negInf ∨
            ∃ q : ℚ, v = JSValue.number (JSNum.fin q) ∧ q ≤ 0)) ∧
    (∀ q : ℚ, 0 < q →
        Circulo.crear (JSValue.number (JSNum.fin q)) = Except.ok ⟨JSNum.fin q⟩ ∧
        Pentagono.crear (JSValue.number (JSNum.fin q)) = Except.ok ⟨JSNum.fin q⟩ ∧
        Hexagono.crear (JSValue.number (JSNum.fin q)) = Except.ok ⟨JSNum.fin q⟩ ∧
        Cubo.crear (JSValue.number (JSNum.fin q)) = Except.ok ⟨JSNum.fin q⟩ ∧
        Esfera.crear (JSValue.number (JSNum.fin q)) = Except.ok ⟨JSNum.fin q⟩) ∧
    (∀ w h : ℚ, 0 < w → 0 < h →
        Rectangulo.crear (JSValue.number (JSNum.fin w)) (JSValue.number (JSNum.fin h)) =
          Except.ok ⟨JSNum.fin w, JSNum.fin h⟩) ∧
    (∀ v : JSValue,
        validarNumero v "radio" = Except.error (JSError.invalidParameter "radio") →
          Circulo.crear v = Except.error (JSError.invalidParameter "radio")) := by
  refine ⟨?_, ?_, ?_, ?_⟩
  · intro v nombre
    rcases v with n | _
    · rcases n with q | _ | _ | _
      · by_cases hq : q ≤ 0 <;> simp [validarNumero, JSNum.leZero, hq]
      · simp [validarNumero, JSNum.leZero]
      · simp [validarNumero, JSNum.leZero]
      · simp [validarNumero, JSNum.leZero]
    · simp [validarNumero]
  · intro q hq
    refine ⟨?_, ?_, ?_, ?_, ?_⟩ <;>
      simp [Circulo.crear, Pentagono.crear, Hexagono.crear, Cubo.crear, Esfera.crear,
        validarNumero_fin_pos q hq, JSValue.toNum]
  · intro w h hw hh
    simp [Rectangulo.crear, validarNumero_fin_pos w hw, validarNumero_fin_pos h hh,
      JSValue.toNum]
  · intro v hv
    simp [Circulo.crear, hv]

/-- C1 witness: radius 2 is strictly positive and constructing a circle
with it succeeds. -/
theorem validarNumero_caracterizacion_witness :
    0 < (2 : ℚ) ∧
    Circulo.crear (JSValue.number (JSNum.fin 2)) = Except.ok ⟨JSNum.fin 2⟩ :=
  ⟨by norm_num, (validarNumero_caracterizacion.2.1 2 (by norm_num)).1⟩

/-- C2 (counterexample): the factory wraps a cube in a `Figura3DAdapter`,
and that adapter class declares no `id` accessor — the factory's product
for 3D kinds does not carry the full 2D shape contract. -/
theorem adaptador_sin_id :
    FiguraGeometrica.crear "cubo"
        ⟨.nonNumber, .nonNumber, .nonNumber, .number (.fin 3)⟩ =
      Except.ok (.adaptada ⟨.cubo ⟨.fin 3⟩⟩) ∧
    FiguraGeometrica.tieneMetodo (.adaptada ⟨.cubo ⟨.fin 3⟩⟩) Metodo.id = false :=
  ⟨rfl, rfl⟩

/-- C2 (amended): every factory product provides `calcularArea`,
`calcularPerimetro`, `dibujarASCII` and `describir`; products of the 2D
kinds additionally provide the `id` accessor and `compararSimilitud`,
while the adapter-wrapped 3D products provide neither of those two. -/
theorem crear_contrato :
    (∀ (tipo : String) (parametros : Parametros) (figura : FiguraGeometrica),
        FiguraGeometrica.crear tipo parametros = Except.ok figura →
          figura.tieneMetodo .calcularArea = true ∧
          figura.tieneMetodo .calcularPerimetro = true ∧
          figura.tieneMetodo .dibujarASCII = true ∧
          figura.tieneMetodo .describir = true) ∧
    (∀ figura : FiguraGeometrica,
        (∀ a : Figura3DAdapter, figura ≠ .adaptada a) →
          ∀ m : Metodo, figura.tieneMetodo m = true) ∧
    (∀ a : Figura3DAdapter,
        FiguraGeometrica.tieneMetodo (.adaptada a) .id = false ∧
        FiguraGeometrica.tieneMetodo (.adaptada a) .compararSimilitud = false) := by
  refine ⟨?_, ?_, ?_⟩
  · intro tipo parametros figura _
    cases figura <;> exact ⟨rfl, rfl, rfl, rfl⟩
  · intro figura hno m
    cases figura with
    | adaptada a => exact absurd rfl (hno a)
    | circulo c => rfl
    | rectangulo r => rfl
    | pentagono p => rfl
    | hexagono h => rfl
  · exact fun a => ⟨rfl, rfl⟩

/-- C2 witness: the circle produced by the factory for kind `circulo`
carries the four common capabilities. -/
theorem crear_contrato_witness :
    FiguraGeometrica.tieneMetodo (.circulo ⟨.fin 5⟩) .calcularArea = true ∧
    FiguraGeometrica.tieneMetodo (.circulo ⟨.fin 5⟩) .calcularPerimetro = true ∧
    FiguraGeometrica.tieneMetodo (.circulo ⟨.fin 5⟩) .dibujarASCII = true ∧
    FiguraGeometrica.tieneMetodo (.circulo ⟨.fin 5⟩) .describir = true :=
  crear_contrato.1 "circulo" ⟨.number (.fin 5), .nonNumber, .nonNumber, .nonNumber⟩
    (.circulo ⟨.fin 5⟩) rfl

/-- C6: type similarity holds iff the two display names are exactly equal;
display names coincide precisely for shapes of the same kind, regardless
of dimensions; and `compararSimilitud` with no strategy argument uses
type similarity. -/
theorem similitud_tipo_spec :
    (∀ fig1 fig2 : FiguraGeometrica,
        SimilitudStrategy.sonSimilares .tipo fig1 fig2 ↔ fig1.nombre = fig2.nombre) ∧
    (∀ fig1 fig2 : FiguraGeometrica,
        fig1.nombre = fig2.nombre ↔ fig1.tipoDe = fig2.tipoDe) ∧
    (∀ fig1 fig2 : FiguraGeometrica,
        fig1.compararSimilitud fig2 none ↔
          SimilitudStrategy.sonSimilares .tipo fig1 fig2) :=
  ⟨fun _ _ => Iff.rfl, nombre_eq_iff_tipo, fun _ _ => Iff.rfl⟩

/-- C7: any kind tag outside the six recognized ones makes the factory
fail with `UnknownKind`, whatever the parameter bag. -/
theorem crear_tipo_no_reconocido (tipo : String)
    (h : tipo ∉ ["circulo", "rectangulo", "pentagono", "hexagono", "cubo", "esfera"])
    (parametros : Parametros) :
    FiguraGeometrica.crear tipo parametros = Except.error JSError.unknownKind := by
  unfold FiguraGeometrica.crear
  split <;> simp_all

/-- C7 witness: `triangle` is not a recognized kind and the factory
rejects it with `UnknownKind`. -/
theorem crear_tipo_no_reconocido_witness :
    "triangle" ∉ ["circulo", "rectangulo", "pentagono", "hexagono", "cubo", "esfera"] ∧
    FiguraGeometrica.crear "triangle" ⟨.nonNumber, .nonNumber, .nonNumber, .nonNumber⟩ =
      Except.error JSError.unknownKind :=
  ⟨by decide, crear_tipo_no_reconocido "triangle" (by decide)
    ⟨.nonNumber, .nonNumber, .nonNumber, .nonNumber⟩⟩

/-- C8 (counterexample): the sphere's ASCII pattern is character-for-character
identical to the circle's, against the claim that every 3D pattern is
distinct from every 2D pattern. -/
theorem esfera_ascii_igual_circulo :
    Esfera.dibujarASCII ⟨JSNum.fin 1⟩ = Circulo.dibujarASCII ⟨JSNum.fin 1⟩ :=
  rfl

/-- C8 (amended): each solid's ASCII art is one fixed string independent
of its dimensions; the cube's pattern differs from all four 2D patterns,
and the sphere's differs from the rectangle's, pentagon's and hexagon's
but coincides exactly with the circle's. -/
theorem dibujos_solidos :
    (∀ n m : JSNum,
        Cubo.dibujarASCII ⟨n⟩ = Cubo.dibujarASCII ⟨m⟩ ∧
        Esfera.dibujarASCII ⟨n⟩ = Esfera.dibujarASCII ⟨m⟩) ∧
    (∀ n m : JSNum,
        Cubo.dibujarASCII ⟨n⟩ ≠ Circulo.dibujarASCII ⟨m⟩ ∧
        Cubo.dibujarASCII ⟨n⟩ ≠ Rectangulo.dibujarASCII ⟨m, m⟩ ∧
        Cubo.dibujarASCII ⟨n⟩ ≠ Pentagono.dibujarASCII ⟨m⟩ ∧
        Cubo.dibujarASCII ⟨n⟩ ≠ Hexagono.dibujarASCII ⟨m⟩) ∧
    (∀ n m : JSNum,
        Esfera.dibujarASCII ⟨n⟩ ≠ Rectangulo.dibujarASCII ⟨m, m⟩ ∧
        Esfera.dibujarASCII ⟨n⟩ ≠ Pentagono.dibujarASCII ⟨m⟩ ∧
        Esfera.dibujarASCII ⟨n⟩ ≠ Hexagono.dibujarASCII ⟨m⟩ ∧
        Esfera.dibujarASCII ⟨n⟩ = Circulo.dibujarASCII ⟨m⟩) := by
  refine ⟨fun n m => ⟨rfl, rfl⟩, fun n m => ⟨?_, ?_, ?_, ?_⟩,
    fun n m => ⟨?_, ?_, ?_, rfl⟩⟩ <;>
    simp [Cubo.dibujarASCII, Esfera.dibujarASCII, Circulo.dibujarASCII,
      Rectangulo.dibujarASCII, Pentagono.dibujarASCII, Hexagono.dibujarASCII]

/-- C9: `agregar` appends preserving insertion order, and `listar` emits
the header followed by each member's `describir()` output exactly once,
in insertion order; in particular adding A, B, C and listing yields the
descriptions of A, B, C in that order. -/
theorem coleccion_orden :
    (∀ (c : ColeccionFiguras) (figura : FiguraGeometrica),
        (c.agregar figura).figuras = c.figuras ++ [figura]) ∧
    (∀ c : ColeccionFiguras,
        c.listar = "=== FIGURAS ===" :: c.figuras.map FiguraGeometrica.describir) ∧
    (∀ figA figB figC : FiguraGeometrica,
        (((ColeccionFiguras.vacia.agregar figA).agregar figB).agregar figC).listar =
          ["=== FIGURAS ===", figA.describir, figB.describir, figC.describir]) :=
  ⟨fun _ _ => rfl, fun _ => rfl, fun _ _ _ => rfl⟩

/-- C3: for strictly positive finite parameters every 2D shape's
`calcularArea` and `calcularPerimetro` equal the closed-form formulas of
the specification, and both results are strictly positive. -/
theorem formulas_2d :
    (∀ q : ℚ, 0 < q →
        Circulo.calcularArea ⟨.fin q⟩ = Real.pi * (q : ℝ) ^ 2 ∧
        Circulo.calcularPerimetro ⟨.fin q⟩ = 2 * Real.pi * (q : ℝ) ∧
        0 < Circulo.calcularArea ⟨.fin q⟩ ∧
        0 < Circulo.calcularPerimetro ⟨.fin q⟩) ∧
    (∀ w h : ℚ, 0 < w → 0 < h →
        Rectangulo.calcularArea ⟨.fin w, .fin h⟩ = (w : ℝ) * (h : ℝ) ∧
        Rectangulo.calcularPerimetro ⟨.fin w, .fin h⟩ = 2 * ((w : ℝ) + (h : ℝ)) ∧
        0 < Rectangulo.calcularArea ⟨.fin w, .fin h⟩ ∧
        0 < Rectangulo.calcularPerimetro ⟨.fin w, .fin h⟩) ∧
    (∀ q : ℚ, 0 < q →
        Pentagono.calcularArea ⟨.fin q⟩ =
          5 * (q : ℝ) ^ 2 / (4 * Real.tan (Real.pi / 5)) ∧
        Pentagono.calcularPerimetro ⟨.fin q⟩ = 5 * (q : ℝ) ∧
        0 < Pentagono.calcularArea ⟨.fin q⟩ ∧
        0 < Pentagono.calcularPerimetro ⟨.fin q⟩) ∧
    (∀ q : ℚ, 0 < q →
        Hexagono.calcularArea ⟨.fin q⟩ = 3 * Real.sqrt 3 / 2 * (q : ℝ) ^ 2 ∧
        Hexagono.calcularPerimetro ⟨.fin q⟩ = 6 * (q : ℝ) ∧
        0 < Hexagono.calcularArea ⟨.fin q⟩ ∧
        0 < Hexagono.calcularPerimetro ⟨.fin q⟩) := by
  refine ⟨fun q hq => ⟨rfl, rfl, circulo_area_pos q hq, ?_⟩,
    fun w h hw hh => ⟨rfl, rfl, rectangulo_area_pos w h hw hh, ?_⟩,
    fun q hq => ⟨rfl, rfl, pentagono_area_pos q hq, ?_⟩,
    fun q hq => ⟨rfl, rfl, hexagono_area_pos q hq, ?_⟩⟩
  · have hq' : (0 : ℝ) < (q : ℝ) := by exact_mod_cast hq
    have e : Circulo.calcularPerimetro ⟨.fin q⟩ = 2 * Real.pi * (q : ℝ) := rfl
    rw [e]
    exact mul_pos (mul_pos two_pos Real.pi_pos) hq'
  · have hw' : (0 : ℝ) < (w : ℝ) := by exact_mod_cast hw
    have hh' : (0 : ℝ) < (h : ℝ) := by exact_mod_cast hh
    have e : Rectangulo.calcularPerimetro ⟨.fin w, .fin h⟩ =
        2 * ((w : ℝ) + (h : ℝ)) := rfl
    rw [e]
    exact mul_pos two_pos (add_pos hw' hh')
  · have hq' : (0 : ℝ) < (q : ℝ) := by exact_mod_cast hq
    have e : Pentagono.calcularPerimetro ⟨.fin q⟩ = 5 * (q : ℝ) := rfl
    rw [e]
    exact mul_pos (by norm_num) hq'
  · have hq' : (0 : ℝ) < (q : ℝ) := by exact_mod_cast hq
    have e : Hexagono.calcularPerimetro ⟨.fin q⟩ = 6 * (q : ℝ) := rfl
    rw [e]
    exact mul_pos (by norm_num) hq'

/-- C3 witness: the circle of radius 1 has strictly positive area. -/
theorem formulas_2d_witness :
    (0 : ℚ) < 1 ∧ 0 < Circulo.calcularArea ⟨.fin 1⟩ :=
  ⟨by norm_num, (formulas_2d.1 1 (by norm_num)).2.2.1⟩

/-- C4: for every validly constructed solid the adapter reports the
volume raised to the power 2/3 as area and exactly 0 as perimeter; the
adapter over a cube of side 3 has area `27^(2/3) = 9` and perimeter 0. -/
theorem adaptador_formulas :
    (∀ q : ℚ, 0 < q →
        Cubo.calcularVolumen ⟨.fin q⟩ = (q : ℝ) ^ 3 ∧
        Figura3DAdapter.calcularArea ⟨.cubo ⟨.fin q⟩⟩ =
          ((q : ℝ) ^ 3) ^ ((2 : ℝ) / 3) ∧
        Figura3DAdapter.calcularPerimetro ⟨.cubo ⟨.fin q⟩⟩ = 0) ∧
    (∀ q : ℚ, 0 < q →
        Esfera.calcularVolumen ⟨.fin q⟩ = 4 / 3 * Real.pi * (q : ℝ) ^ 3 ∧
        Figura3DAdapter.calcularArea ⟨.esfera ⟨.fin q⟩⟩ =
          (4 / 3 * Real.pi * (q : ℝ) ^ 3) ^ ((2 : ℝ) / 3) ∧
        Figura3DAdapter.calcularPerimetro ⟨.esfera ⟨.fin q⟩⟩ = 0) ∧
    (Figura3DAdapter.calcularArea ⟨.cubo ⟨.fin 3⟩⟩ = 9 ∧
     Figura3DAdapter.calcularPerimetro ⟨.cubo ⟨.fin 3⟩⟩ = 0) := by
  refine ⟨fun q hq => ⟨rfl, rfl, rfl⟩, fun q hq => ⟨rfl, rfl, rfl⟩, ?_, rfl⟩
  have e : Figura3DAdapter.calcularArea ⟨.cubo ⟨.fin 3⟩⟩ =
      ((27 : ℝ)) ^ ((2 : ℝ) / 3) := by
    show (((3 : ℚ) : ℝ) ^ 3) ^ ((2 : ℝ) / 3) = ((27 : ℝ)) ^ ((2 : ℝ) / 3)
    norm_num
  rw [e]
  have e27 : (27 : ℝ) = (3 : ℝ) ^ ((3 : ℕ) : ℝ) := by
    rw [Real.rpow_natCast]
    norm_num
  rw [e27, ← Real.rpow_mul (by norm_num : (0 : ℝ) ≤ 3)]
  have e2 : ((3 : ℕ) : ℝ) * ((2 : ℝ) / 3) = ((2 : ℕ) : ℝ) := by
    push_cast
    ring
  rw [e2, Real.rpow_natCast]
  norm_num

/-- C4 witness: the adapter over a cube of side 2 reports perimeter 0. -/
theorem adaptador_formulas_witness :
    (0 : ℚ) < 2 ∧ Figura3DAdapter.calcularPerimetro ⟨.cubo ⟨.fin 2⟩⟩ = 0 :=
  ⟨by norm_num, (adaptador_formulas.1 2 (by norm_num)).2.2⟩

/-- C5: area similarity holds iff the ordered ratio of the two computed
areas lies strictly in (0.8, 1.2); the pentagon of side 4 and the hexagon
of side 6 are not area-similar; and there are two shapes whose verdict
changes when the arguments are swapped. -/
theorem similitud_area_spec :
    (∀ fig1 fig2 : FiguraGeometrica,
        SimilitudStrategy.sonSimilares .area fig1 fig2 ↔
          (0.8 < fig1.calcularArea / fig2.calcularArea ∧
           fig1.calcularArea / fig2.calcularArea < 1.2)) ∧
    ¬ SimilitudStrategy.sonSimilares .area (.pentagono ⟨.fin 4⟩) (.hexagono ⟨.fin 6⟩) ∧
    (∃ fig1 fig2 : FiguraGeometrica,
        SimilitudStrategy.sonSimilares .area fig1 fig2 ∧
        ¬ SimilitudStrategy.sonSimilares .area fig2 fig1) := by
  have hpent : FiguraGeometrica.calcularArea (.pentagono ⟨.fin 4⟩) =
      80 / (4 * Real.tan (Real.pi / 5)) := by
    show 5 * ((4 : ℚ) : ℝ) ^ 2 / (4 * Real.tan (Real.pi / 5)) = _
    norm_num
  have hhex : FiguraGeometrica.calcularArea (.hexagono ⟨.fin 6⟩) = 54 * Real.sqrt 3 := by
    show (3 * Real.sqrt 3) / 2 * ((6 : ℚ) : ℝ) ^ 2 = _
    push_cast
    ring
  have ha : FiguraGeometrica.calcularArea (.rectangulo ⟨.fin 81, .fin 1⟩) = 81 := by
    show ((81 : ℚ) : ℝ) * ((1 : ℚ) : ℝ) = 81
    norm_num
  have hb : FiguraGeometrica.calcularArea (.rectangulo ⟨.fin 100, .fin 1⟩) = 100 := by
    show ((100 : ℚ) : ℝ) * ((1 : ℚ) : ℝ) = 100
    norm_num
  refine ⟨fun _ _ => Iff.rfl, ?_, ?_⟩
  · rintro ⟨h1, h2⟩
    rw [hpent, hhex] at h1
    have ht6 := tan_pi_div_five_gt
    have hs := sqrt_three_gt
    have hs0 : (0 : ℝ) < Real.sqrt 3 := by linarith
    have h4t : (0 : ℝ) < 4 * Real.tan (Real.pi / 5) := by linarith
    have hA2 : (0 : ℝ) < 54 * Real.sqrt 3 := by linarith
    have hA1 : 80 / (4 * Real.tan (Real.pi / 5)) < 34 := by
      rw [div_lt_iff₀ h4t]
      nlinarith
    have hlt : 80 / (4 * Real.tan (Real.pi / 5)) / (54 * Real.sqrt 3) < 0.8 := by
      rw [div_lt_iff₀ hA2]
      nlinarith
    linarith
  · refine ⟨.rectangulo ⟨.fin 81, .fin 1⟩, .rectangulo ⟨.fin 100, .fin 1⟩, ?_, ?_⟩
    · refine ⟨?_, ?_⟩ <;> rw [ha, hb] <;> norm_num
    · rintro ⟨h1, h2⟩
      rw [ha, hb] at h2
      norm_num at h2

/-- C10: every validly constructed figure — a 2D shape or an adapter over
a valid solid — has strictly positive computed area; hence for any two
such figures the area-similarity ratio divides by a nonzero number. -/
theorem area_positiva :
    (∀ figura : FiguraGeometrica, figura.esValida = true → 0 < figura.calcularArea) ∧
    (∀ fig1 fig2 : FiguraGeometrica, fig1.esValida = true → fig2.esValida = true →
        fig2.calcularArea ≠ 0 ∧
        fig1.calcularArea / fig2.calcularArea ≠ 0) := by
  have pos : ∀ figura : FiguraGeometrica, figura.esValida = true →
      0 < figura.calcularArea := by
    intro figura hval
    rcases figura with ⟨⟨n⟩⟩ | ⟨⟨n, m⟩⟩ | ⟨⟨n⟩⟩ | ⟨⟨n⟩⟩ | ⟨cc | ee⟩
    · cases n <;> simp [FiguraGeometrica.esValida, JSNum.esFinitoPositivo] at hval
      exact circulo_area_pos _ hval
    · cases n <;> cases m <;>
        simp [FiguraGeometrica.esValida, JSNum.esFinitoPositivo] at hval
      exact rectangulo_area_pos _ _ hval.1 hval.2
    · cases n <;> simp [FiguraGeometrica.esValida, JSNum.esFinitoPositivo] at hval
      exact pentagono_area_pos _ hval
    · cases n <;> simp [FiguraGeometrica.esValida, JSNum.esFinitoPositivo] at hval
      exact hexagono_area_pos _ hval
    · rcases cc with ⟨n⟩
      cases n <;> simp [FiguraGeometrica.esValida, JSNum.esFinitoPositivo] at hval
      exact Real.rpow_pos_of_pos (cubo_volumen_pos _ hval) _
    · rcases ee with ⟨n⟩
      cases n <;> simp [FiguraGeometrica.esValida, JSNum.esFinitoPositivo] at hval
      exact Real.rpow_pos_of_pos (esfera_volumen_pos _ hval) _
  refine ⟨pos, fun fig1 fig2 h1 h2 => ?_⟩
  have hp1 := pos fig1 h1
  have hp2 := pos fig2 h2
  exact ⟨ne_of_gt hp2, div_ne_zero (ne_of_gt hp1) (ne_of_gt hp2)⟩

/-- C10 witness: the circle of radius 1 is valid and its area is
strictly positive. -/
theorem area_positiva_witness :
    FiguraGeometrica.esValida (.circulo ⟨.fin 1⟩) = true ∧
    0 < FiguraGeometrica.calcularArea (.circulo ⟨.fin 1⟩) :=
  ⟨rfl, area_positiva.1 (.circulo ⟨.fin 1⟩) rfl⟩
